import Mathlib

/-!
Shallow embedding of `simple_server.py`, a minimal HTTP server built on
Python's `BaseHTTPRequestHandler`.  The handler class `SimpleHandler`
defines `do_GET` (render a fixed HTML page parameterized by the request
path and the current wall-clock time) and `log_message` (one timestamped
line per request on standard output); `run_server` binds a port
(default 8080), prints two startup lines, and serves forever.

Machine-level concerns (sockets, the serve loop) stay outside the
embedding; the request/response cycle is modelled as pure functions of
the request and a clock reading taken at render time.
-/

/-- A wall-clock reading at second resolution, as produced by Python's
`datetime.now()`.  Fields satisfy Python `datetime`'s invariants
(`DateTime.Valid` below): `1 <= year <= 9999`, `1 <= month <= 12`,
`1 <= day <= 31`, `hour <= 23`, `minute <= 59`, `second <= 59`. -/
structure DateTime where
  year : Nat
  month : Nat
  day : Nat
  hour : Nat
  minute : Nat
  second : Nat
deriving DecidableEq, Repr

/-- The range invariants Python's `datetime` type guarantees for the
fields read by the `%Y-%m-%d %H:%M:%S` format. -/
def DateTime.Valid (t : DateTime) : Prop :=
  1 ≤ t.year ∧ t.year ≤ 9999 ∧ 1 ≤ t.month ∧ t.month ≤ 12 ∧
  1 ≤ t.day ∧ t.day ≤ 31 ∧ t.hour ≤ 23 ∧ t.minute ≤ 59 ∧ t.second ≤ 59

instance (t : DateTime) : Decidable t.Valid := by
  unfold DateTime.Valid; infer_instance

/-- Two-digit zero-padded decimal field, as `strftime` renders `%m`,
`%d`, `%H`, `%M`, `%S` (all of whose values are below 100 by the
`datetime` invariants). -/
def pad2 (n : Nat) : String :=
  ⟨[Nat.digitChar (n / 10 % 10), Nat.digitChar (n % 10)]⟩

/-- Four-digit zero-padded decimal field, as `strftime` renders `%Y`
for the years `1..9999` that Python `datetime` admits. -/
def pad4 (n : Nat) : String :=
  ⟨[Nat.digitChar (n / 1000 % 10), Nat.digitChar (n / 100 % 10),
    Nat.digitChar (n / 10 % 10), Nat.digitChar (n % 10)]⟩

/-- `datetime.strftime('%Y-%m-%d %H:%M:%S')` (source line 47 and 57). -/
def formatTimestamp (t : DateTime) : String :=
  pad4 t.year ++ "-" ++ pad2 t.month ++ "-" ++ pad2 t.day ++ " " ++
  pad2 t.hour ++ ":" ++ pad2 t.minute ++ ":" ++ pad2 t.second

/-- Template text of the f-string (source lines 16-52) from its start up
to the `<title>` element.  Literal `\x7b\x7d` pairs in the CSS are the
text the Python `\x7b\x7b`/`\x7d\x7d` escapes denote. -/
def htmlPart1 : String :=
  "\n        <!DOCTYPE html>\n        <html>\n        <head>\n            "

/-- The `<title>` element of the template. -/
def htmlTitle : String := "<title>Simple HTTP Server</title>"

/-- Template text between `</title>` and the `Path:` paragraph. -/
def htmlPart2 : String :=
  "\n            <style>\n                body \x7b\n                    font-family: Arial, sans-serif;\n                    max-width: 800px;\n                    margin: 50px auto;\n                    padding: 20px;\n                    background-color: #f0f0f0;\n                \x7d\n                .container \x7b\n                    background-color: white;\n                    padding: 30px;\n                    border-radius: 10px;\n                    box-shadow: 0 2px 10px rgba(0,0,0,0.1);\n                \x7d\n                h1 \x7b color: #333; \x7d\n                .info \x7b color: #666; margin-top: 20px; \x7d\n                .emoji \x7b font-size: 3em; \x7d\n            </style>\n        </head>\n        <body>\n            <div class=\"container\">\n                <div class=\"emoji\">👋</div>\n                <h1>Hello from Simple HTTP Server!</h1>\n                <p>This is a basic Python HTTP server.</p>\n                <div class=\"info\">\n                    "

/-- Label of the paragraph into which `self.path` is interpolated. -/
def htmlPathLabel : String := "<p><strong>Path:</strong> "

/-- Template text between the `Path:` and `Time:` paragraphs. -/
def htmlPart3 : String := "</p>\n                    "

/-- Label of the paragraph into which the timestamp is interpolated. -/
def htmlTimeLabel : String := "<p><strong>Time:</strong> "

/-- Template text after the timestamp's `</p>` to the end of the
f-string (the closing `\"\"\"` on source line 52 keeps the final newline
and eight spaces of indentation). -/
def htmlPart4 : String :=
  "</p>\n                </div>\n            </div>\n        </body>\n        </html>\n        "

/-- The f-string of `do_GET` (source lines 16-52): the fixed template
with `self.path` and the formatted timestamp interpolated verbatim. -/
def renderBody (path ts : String) : String :=
  htmlPart1 ++ htmlTitle ++ htmlPart2 ++
  htmlPathLabel ++ path ++ htmlPart3 ++
  htmlTimeLabel ++ ts ++ htmlPart4

/-- An inbound HTTP request as the hosting runtime presents it to the
handler: parsed method and path, plus the headers, body and client
address the handler never consults. -/
structure Request where
  method : String
  path : String
  headers : List (String × String)
  body : String
  client : String
deriving DecidableEq, Repr

/-- An HTTP response: status code, handler-set headers in the order the
handler emits them, and body text (written UTF-8 encoded). -/
structure Response where
  status : Nat
  headers : List (String × String)
  body : String
deriving DecidableEq, Repr

/-- `SimpleHandler.do_GET` (source lines 10-53): `send_response(200)`,
`send_header('Content-type', 'text/html')`, `end_headers()`, then write
the rendered template for the request path and the clock reading taken
during rendering. -/
def do_GET (path : String) (now : DateTime) : Response :=
  ⟨200, [("Content-type", "text/html")], renderBody path (formatTimestamp now)⟩

/-- Modelled from the spec: `SimpleHandler` registers only a GET
responder, so a request with any other method receives the hosting HTTP
primitive's default unsupported-method error (a 501), which the
component does not customize.  The body text is not specified by this
repository's code. -/
def unsupportedMethodResponse (method : String) : Response :=
  ⟨501, [("Content-type", "text/html")],
    "Unsupported method (" ++ method ++ ")"⟩

/-- The hosting runtime's per-request dispatch: a `do_<METHOD>` lookup
that finds `do_GET` for GET and falls back to the unsupported-method
default otherwise. -/
def handleRequest (req : Request) (now : DateTime) : Response :=
  if req.method = "GET" then do_GET req.path now
  else unsupportedMethodResponse req.method

/-- The whole process-wide mutable configuration: the listen port, fixed
when `run_server` starts (source lines 59-65). -/
structure ServerState where
  port : Nat
deriving DecidableEq, Repr

/-- One request/response cycle as the sequential serve loop performs it:
the handler touches no server state, so the state passes through. -/
def serve (s : ServerState) (req : Request) (now : DateTime) :
    ServerState × Response :=
  (s, handleRequest req now)

/-- The sequential serve loop over a finite request trace, each request
paired with the clock reading at its render time. -/
def serveAll (s : ServerState) :
    List (Request × DateTime) → ServerState × List Response
  | [] => (s, [])
  | (req, now) :: rest =>
      let out := serve s req now
      let tail := serveAll out.1 rest
      (tail.1, out.2 :: tail.2)

/-- `SimpleHandler.log_message` (source lines 55-57).  `summary` stands
for `format % args`, the runtime-supplied format string already
interpolated with its positional arguments. -/
def log_message (summary : String) (now : DateTime) : String :=
  "[" ++ formatTimestamp now ++ "] " ++ summary

/-- What one `print` call of `log_message` emits on standard output:
the line plus the trailing newline `print` appends. -/
def logOutput (summary : String) (now : DateTime) : String :=
  log_message summary now ++ "\n"

/-- The hardcoded default port of `run_server` (source line 59). -/
def defaultPort : Nat := 8080

/-- The two startup lines `run_server` prints before serving
(source lines 63-64). -/
def startupLines (port : Nat) : List String :=
  ["Server running on http://localhost:" ++ toString port,
   "Press Ctrl+C to stop the server"]

/-- The entry point (source lines 67-68) calls `run_server()` with no
arguments, so the default port is used; these are the startup lines the
process prints. -/
def mainStartupLines : List String := startupLines defaultPort

/-- A character list laid out as `YYYY-MM-DD HH:MM:SS`: nineteen
characters, digits in the date/time positions, with `-`, a space and
`:` as the separators. -/
def isTimestampLayout (l : List Char) : Prop :=
  ∃ y1 y2 y3 y4 n1 n2 d1 d2 h1 h2 m1 m2 s1 s2 : Char,
    ([y1, y2, y3, y4, n1, n2, d1, d2, h1, h2, m1, m2, s1, s2].all
      Char.isDigit) = true ∧
    l = [y1, y2, y3, y4, '-', n1, n2, '-', d1, d2, ' ',
         h1, h2, ':', m1, m2, ':', s1, s2]

/-- Fixture: a GET request whose path carries a query string and
markup-significant characters, with headers, a body and a client
address the handler ignores. -/
def wReqQuery : Request :=
  ⟨"GET", "/foo/bar?x=1", [("Host", "localhost")], "ignored", "127.0.0.1"⟩

/-- Fixture: a GET request for the root path. -/
def wReqRoot : Request := ⟨"GET", "/", [], "", "127.0.0.1"⟩

/-- Fixture: a GET request with an empty, non-ASCII-free path left
unvalidated by the handler. -/
def wReqOdd : Request := ⟨"GET", "/héllo👋<b>", [], "", "::1"⟩

/-- Fixture: a GET request agreeing with `wReqQuery` on the path but on
nothing else. -/
def wReqQuery2 : Request :=
  ⟨"GET", "/foo/bar?x=1", [("X-Other", "v")], "other-body", "10.0.0.7"⟩

/-- Fixture: a clock reading. -/
def wNow1 : DateTime := ⟨2026, 10, 12, 13, 45, 7⟩

/-- Fixture: a clock reading one second after `wNow1`. -/
def wNow2 : DateTime := ⟨2026, 10, 12, 13, 45, 8⟩

/-! ### Helper lemmas -/

theorem formatTimestamp_data (t : DateTime) :
    (formatTimestamp t).data =
      [Nat.digitChar (t.year / 1000 % 10), Nat.digitChar (t.year / 100 % 10),
       Nat.digitChar (t.year / 10 % 10), Nat.digitChar (t.year % 10), '-',
       Nat.digitChar (t.month / 10 % 10), Nat.digitChar (t.month % 10), '-',
       Nat.digitChar (t.day / 10 % 10), Nat.digitChar (t.day % 10), ' ',
       Nat.digitChar (t.hour / 10 % 10), Nat.digitChar (t.hour % 10), ':',
       Nat.digitChar (t.minute / 10 % 10), Nat.digitChar (t.minute % 10), ':',
       Nat.digitChar (t.second / 10 % 10), Nat.digitChar (t.second % 10)] :=
  rfl

theorem digitChar_mod_isDigit (n : Nat) :
    (Nat.digitChar (n % 10)).isDigit = true :=
  (by decide : ∀ m, m < 10 → (Nat.digitChar m).isDigit = true) _
    (Nat.mod_lt _ (by decide))

theorem newline_ne_digitChar_mod (n : Nat) :
    ('\n' = Nat.digitChar (n % 10)) = False :=
  eq_false fun h =>
    ((by decide : ∀ m, m < 10 → Nat.digitChar m ≠ '\n') _
      (Nat.mod_lt _ (by decide)) h.symm)

theorem digitChar_mod_inj {a b : Nat}
    (h : Nat.digitChar (a % 10) = Nat.digitChar (b % 10)) : a % 10 = b % 10 :=
  (by decide : ∀ x, x < 10 → ∀ y, y < 10 →
      Nat.digitChar x = Nat.digitChar y → x = y) _
    (Nat.mod_lt _ (by decide)) _ (Nat.mod_lt _ (by decide)) h

theorem format_layout (t : DateTime) :
    isTimestampLayout (formatTimestamp t).data := by
  refine ⟨_, _, _, _, _, _, _, _, _, _, _, _, _, _, ?_, formatTimestamp_data t⟩
  simp [List.all_cons, digitChar_mod_isDigit]

theorem newline_notin_format (t : DateTime) :
    '\n' ∉ (formatTimestamp t).data := by
  rw [formatTimestamp_data]
  simp [List.mem_cons, newline_ne_digitChar_mod]

theorem serveAll_eq (s : ServerState) (l : List (Request × DateTime)) :
    serveAll s l = (s, l.map fun p => handleRequest p.1 p.2) := by
  induction l with
  | nil => rfl
  | cons p rest ih => cases p; simp [serveAll, serve, ih]

theorem htmlPart3_split :
    htmlPart3 = "</p>" ++ "\n                    " := rfl

theorem htmlPart4_split :
    htmlPart4 =
      "</p>" ++
        "\n                </div>\n            </div>\n        </body>\n        </html>\n        " :=
  rfl

theorem renderBody_ts_cancel (path ts1 ts2 : String)
    (h : renderBody path ts1 = renderBody path ts2) : ts1 = ts2 := by
  have hd := congrArg String.data h
  simp only [renderBody, String.data_append, List.append_assoc] at hd
  exact String.ext
    (List.append_cancel_right
      (List.append_cancel_left (List.append_cancel_left
        (List.append_cancel_left (List.append_cancel_left
          (List.append_cancel_left (List.append_cancel_left
            (List.append_cancel_left hd))))))))

theorem formatTimestamp_inj {t1 t2 : DateTime}
    (h1 : t1.Valid) (h2 : t2.Valid)
    (heq : formatTimestamp t1 = formatTimestamp t2) : t1 = t2 := by
  obtain ⟨ya, na, da, oa, ma, sa⟩ := t1
  obtain ⟨yb, nb, db, ob, mb, sb⟩ := t2
  simp only [DateTime.Valid] at h1 h2
  have hd := congrArg String.data heq
  rw [formatTimestamp_data, formatTimestamp_data] at hd
  simp only [List.cons.injEq, eq_self_iff_true, true_and, and_true] at hd
  obtain ⟨ey1, ey2, ey3, ey4, en1, en2, ed1, ed2, eh1, eh2,
          em1, em2, es1, es2⟩ := hd
  have ky1 := digitChar_mod_inj ey1
  have ky2 := digitChar_mod_inj ey2
  have ky3 := digitChar_mod_inj ey3
  have ky4 := digitChar_mod_inj ey4
  have kn1 := digitChar_mod_inj en1
  have kn2 := digitChar_mod_inj en2
  have kd1 := digitChar_mod_inj ed1
  have kd2 := digitChar_mod_inj ed2
  have kh1 := digitChar_mod_inj eh1
  have kh2 := digitChar_mod_inj eh2
  have km1 := digitChar_mod_inj em1
  have km2 := digitChar_mod_inj em2
  have ks1 := digitChar_mod_inj es1
  have ks2 := digitChar_mod_inj es2
  simp only [DateTime.mk.injEq]
  obtain ⟨hy1, hy2, hn1, hn2, hda, hdb, hh, hm, hs⟩ := h1
  obtain ⟨gy1, gy2, gn1, gn2, gda, gdb, gh, gm, gs⟩ := h2
  exact ⟨by omega, by omega, by omega, by omega, by omega, by omega⟩

/-! ### Claim theorems -/

/-- C1: for every request path string P, handling a GET request with
path P produces a response with status 200 whose body contains P as an
exact literal substring, inserted verbatim with no escaping or
sanitization (the surrounding `<p><strong>Path:</strong> _</p>`
paragraph holds the raw path, so markup in P appears unescaped). -/
theorem get_reflects_path_verbatim (req : Request) (now : DateTime)
    (hm : req.method = "GET") :
    (handleRequest req now).status = 200 ∧
    req.path.data <:+: (handleRequest req now).body.data ∧
    ("<p><strong>Path:</strong> " ++ req.path ++ "</p>").data <:+:
      (handleRequest req now).body.data := by
  have hb : handleRequest req now = do_GET req.path now := by
    simp [handleRequest, hm]
  rw [hb]
  refine ⟨rfl, ?_, ?_⟩
  · refine ⟨(htmlPart1 ++ htmlTitle ++ htmlPart2 ++ htmlPathLabel).data,
      (htmlPart3 ++ htmlTimeLabel ++ formatTimestamp now ++ htmlPart4).data,
      ?_⟩
    simp [do_GET, renderBody, String.data_append, List.append_assoc]
  · refine ⟨(htmlPart1 ++ htmlTitle ++ htmlPart2).data,
      ("\n                    " ++ htmlTimeLabel ++ formatTimestamp now ++
        htmlPart4).data, ?_⟩
    simp [do_GET, renderBody, htmlPart3_split, htmlPathLabel,
      String.data_append, List.append_assoc]

/-- Witness for C1 at the concrete request `GET /foo/bar?x=1`. -/
theorem get_reflects_path_verbatim_witness :
    (handleRequest wReqQuery wNow1).status = 200 ∧
    wReqQuery.path.data <:+: (handleRequest wReqQuery wNow1).body.data ∧
    ("<p><strong>Path:</strong> " ++ wReqQuery.path ++ "</p>").data <:+:
      (handleRequest wReqQuery wNow1).body.data :=
  get_reflects_path_verbatim wReqQuery wNow1 rfl

/-- C2: for every GET request, regardless of path, the response carries
the header `Content-type` with value exactly `text/html` (it is the
only header the handler sets). -/
theorem get_content_type_exact (req : Request) (now : DateTime)
    (hm : req.method = "GET") :
    (handleRequest req now).headers = [("Content-type", "text/html")] := by
  simp [handleRequest, hm, do_GET]

/-- Witness for C2 at the concrete request `GET /foo/bar?x=1`. -/
theorem get_content_type_exact_witness :
    (handleRequest wReqQuery wNow1).headers =
      [("Content-type", "text/html")] :=
  get_content_type_exact wReqQuery wNow1 rfl

/-- C3: for every GET request, the body embeds the clock reading taken
at render time, formatted as `YYYY-MM-DD HH:MM:SS`; the formatter is
applied to the per-request reading, never to a stored value. -/
theorem get_timestamp_render_time (req : Request) (now : DateTime)
    (hm : req.method = "GET") :
    ("<p><strong>Time:</strong> " ++ formatTimestamp now ++ "</p>").data <:+:
      (handleRequest req now).body.data ∧
    isTimestampLayout (formatTimestamp now).data := by
  refine ⟨?_, format_layout now⟩
  have hb : handleRequest req now = do_GET req.path now := by
    simp [handleRequest, hm]
  rw [hb]
  refine ⟨(htmlPart1 ++ htmlTitle ++ htmlPart2 ++ htmlPathLabel ++ req.path ++
      htmlPart3).data,
    ("\n                </div>\n            </div>\n        </body>\n        </html>\n        ").data,
    ?_⟩
  simp [do_GET, renderBody, htmlPart4_split, htmlTimeLabel,
    String.data_append, List.append_assoc]

/-- Witness for C3 at the concrete request `GET /` and a fixed clock. -/
theorem get_timestamp_render_time_witness :
    ("<p><strong>Time:</strong> " ++ formatTimestamp wNow1 ++ "</p>").data <:+:
      (handleRequest wReqRoot wNow1).body.data ∧
    isTimestampLayout (formatTimestamp wNow1).data :=
  get_timestamp_render_time wReqRoot wNow1 rfl

/-- C4: every handled request produces exactly one log line on standard
output, of the form `[<timestamp>] <request-line-summary>`, with the
timestamp formatted `YYYY-MM-DD HH:MM:SS` and the summary being the
runtime-supplied format string interpolated with its arguments. -/
theorem log_line_format (summary : String) (now : DateTime)
    (hs : '\n' ∉ summary.data) :
    logOutput summary now = log_message summary now ++ "\n" ∧
    log_message summary now =
      "[" ++ formatTimestamp now ++ "] " ++ summary ∧
    isTimestampLayout (formatTimestamp now).data ∧
    (logOutput summary now).data.count '\n' = 1 := by
  refine ⟨rfl, rfl, format_layout now, ?_⟩
  have h1 : (formatTimestamp now).data.count '\n' = 0 :=
    List.count_eq_zero.mpr (newline_notin_format now)
  have h2 : summary.data.count '\n' = 0 := List.count_eq_zero.mpr hs
  simp [logOutput, log_message, String.data_append, List.count_append, h1, h2]

/-- Witness for C4 at a concrete request-line summary. -/
theorem log_line_format_witness :
    logOutput "GET / HTTP/1.1 200 -" wNow1 =
      log_message "GET / HTTP/1.1 200 -" wNow1 ++ "\n" ∧
    log_message "GET / HTTP/1.1 200 -" wNow1 =
      "[" ++ formatTimestamp wNow1 ++ "] " ++ "GET / HTTP/1.1 200 -" ∧
    isTimestampLayout (formatTimestamp wNow1).data ∧
    (logOutput "GET / HTTP/1.1 200 -" wNow1).data.count '\n' = 1 :=
  log_line_format "GET / HTTP/1.1 200 -" wNow1 (by decide)

/-- C5: handling any request, GET or not, leaves the server state (the
listen port, the only process-wide state) unchanged, and every request
in a trace is answered exactly as it would be in isolation, so GETs
after an unsupported-method request are served as before. -/
theorem server_state_unchanged (s : ServerState)
    (l : List (Request × DateTime)) :
    (serveAll s l).1 = s ∧
    (serveAll s l).2 = l.map fun p => handleRequest p.1 p.2 := by
  rw [serveAll_eq]
  exact ⟨rfl, rfl⟩

/-- C6: `GET /` yields status 200 and a body containing both
`<title>Simple HTTP Server</title>` and
`<p><strong>Path:</strong> /</p>` as literal substrings. -/
theorem get_root_scenario (req : Request) (now : DateTime)
    (hm : req.method = "GET") (hp : req.path = "/") :
    (handleRequest req now).status = 200 ∧
    ("<title>Simple HTTP Server</title>").data <:+:
      (handleRequest req now).body.data ∧
    ("<p><strong>Path:</strong> /</p>").data <:+:
      (handleRequest req now).body.data := by
  have hb : handleRequest req now = do_GET "/" now := by
    simp [handleRequest, hm, hp]
  rw [hb]
  refine ⟨rfl, ?_, ?_⟩
  · refine ⟨htmlPart1.data,
      (htmlPart2 ++ htmlPathLabel ++ "/" ++ htmlPart3 ++ htmlTimeLabel ++
        formatTimestamp now ++ htmlPart4).data, ?_⟩
    simp [do_GET, renderBody, htmlTitle, String.data_append,
      List.append_assoc]
  · have hsplit : ("<p><strong>Path:</strong> /</p>" : String) =
        "<p><strong>Path:</strong> " ++ "/" ++ "</p>" := rfl
    rw [hsplit]
    refine ⟨(htmlPart1 ++ htmlTitle ++ htmlPart2).data,
      ("\n                    " ++ htmlTimeLabel ++ formatTimestamp now ++
        htmlPart4).data, ?_⟩
    simp [do_GET, renderBody, htmlPart3_split, htmlPathLabel,
      String.data_append, List.append_assoc]

/-- Witness for C6 at the concrete request `GET /`. -/
theorem get_root_scenario_witness :
    (handleRequest wReqRoot wNow1).status = 200 ∧
    ("<title>Simple HTTP Server</title>").data <:+:
      (handleRequest wReqRoot wNow1).body.data ∧
    ("<p><strong>Path:</strong> /</p>").data <:+:
      (handleRequest wReqRoot wNow1).body.data :=
  get_root_scenario wReqRoot wNow1 rfl rfl

/-- C7: the server defaults to port 8080 and at startup writes exactly
the two lines `Server running on http://localhost:8080` and
`Press Ctrl+C to stop the server`. -/
theorem startup_port_and_lines :
    defaultPort = 8080 ∧
    mainStartupLines =
      ["Server running on http://localhost:8080",
       "Press Ctrl+C to stop the server"] ∧
    mainStartupLines.length = 2 := by
  decide

/-- C8: two GET responses rendered at distinct second-resolution clock
readings carry distinct timestamps and distinct bodies; the timestamp
is a fresh reading per request, never a cached value. -/
theorem sequential_timestamps_distinct (path : String) (t1 t2 : DateTime)
    (h1 : t1.Valid) (h2 : t2.Valid) (hne : t1 ≠ t2) :
    formatTimestamp t1 ≠ formatTimestamp t2 ∧
    (do_GET path t1).body ≠ (do_GET path t2).body := by
  constructor
  · exact fun h => hne (formatTimestamp_inj h1 h2 h)
  · intro h
    simp only [do_GET] at h
    exact hne (formatTimestamp_inj h1 h2 (renderBody_ts_cancel path _ _ h))

/-- Witness for C8 at two clock readings one second apart. -/
theorem sequential_timestamps_distinct_witness :
    formatTimestamp wNow1 ≠ formatTimestamp wNow2 ∧
    (do_GET "/" wNow1).body ≠ (do_GET "/" wNow2).body :=
  sequential_timestamps_distinct "/" wNow1 wNow2 (by decide) (by decide)
    (by decide)

/-- C9: the GET response is a deterministic function of the request
path and the render-time clock reading only: requests agreeing on the
path get identical responses whatever their headers, body or client,
and the response is unaffected by previously handled requests. -/
theorem get_response_deterministic (req1 req2 : Request) (now : DateTime)
    (h1 : req1.method = "GET") (h2 : req2.method = "GET")
    (hp : req1.path = req2.path) :
    handleRequest req1 now = handleRequest req2 now ∧
    ∀ (s : ServerState) (hist : List (Request × DateTime)),
      (serveAll s (hist ++ [(req1, now)])).2 =
        (serveAll s hist).2 ++ [handleRequest req1 now] := by
  constructor
  · simp [handleRequest, h1, h2, hp]
  · intro s hist
    simp [serveAll_eq, List.map_append]

/-- Witness for C9 at two requests sharing a path but differing in
headers, body and client. -/
theorem get_response_deterministic_witness :
    handleRequest wReqQuery wNow1 = handleRequest wReqQuery2 wNow1 :=
  (get_response_deterministic wReqQuery wReqQuery2 wNow1 rfl rfl rfl).1

/-- C10: the GET handler is total over its path input: every path,
empty or non-ASCII included, yields the 200 page through the single
branch-free rendering path, and every character of the body is a
Unicode scalar value, so UTF-8 encoding succeeds. -/
theorem get_handler_total (req : Request) (now : DateTime)
    (hm : req.method = "GET") :
    handleRequest req now = do_GET req.path now ∧
    (handleRequest req now).status = 200 ∧
    ∀ c ∈ (handleRequest req now).body.data, c.val.isValidChar := by
  have hb : handleRequest req now = do_GET req.path now := by
    simp [handleRequest, hm]
  exact ⟨hb, by simp [hb, do_GET], fun c _ => c.valid⟩

/-- Witness for C10 at a non-ASCII, markup-bearing path. -/
theorem get_handler_total_witness :
    handleRequest wReqOdd wNow1 = do_GET wReqOdd.path wNow1 ∧
    (handleRequest wReqOdd wNow1).status = 200 :=
  ⟨(get_handler_total wReqOdd wNow1 rfl).1,
   (get_handler_total wReqOdd wNow1 rfl).2.1⟩
